import Mathlib

/-!
Verification development for the settings_persist module
(src/settings_persist.c).  The C code is shallowly embedded: machine
integers become Nat with explicit reductions modulo 2^16 where the C
type uint16_t truncates, byte buffers become lists over Fin 256, the
filesystem becomes a finite map from the four configured paths to
optional records, and the external INI serializer and defaults
provider are abstracted as parameters.
-/

set_option maxRecDepth 4000

namespace SettingsPersist

/-! ## Checksum Unit: calculate_crc_16_ibm (settings_persist.c lines 81-121) -/

/-- Bit reversal of one input byte, as the three mask-and-shift swaps
in the C source (lines 90-92).  All intermediate values stay below 256,
as they do in the C code where the variable has type uint8_t. -/
def rev8 (b : Nat) : Nat :=
  let b1 := ((b &&& 0xF0) >>> 4) ||| ((b &&& 0x0F) <<< 4)
  let b2 := ((b1 &&& 0xCC) >>> 2) ||| ((b1 &&& 0x33) <<< 2)
  ((b2 &&& 0xAA) >>> 1) ||| ((b2 &&& 0x55) <<< 1)

/-- One iteration of the inner loop (lines 98-108): test bit 15, shift
left by one and conditionally XOR the polynomial 0x8005.  The reduction
modulo 65536 models the truncation to uint16_t on assignment. -/
def crcShift (crc : Nat) : Nat :=
  if crc &&& 0x8000 ≠ 0 then ((crc <<< 1) ^^^ 0x8005) % 65536
  else (crc <<< 1) % 65536

/-- Processing of one input byte (lines 88-108): reverse its bits, XOR
into the high byte of the register, then run eight shift steps. -/
def crcByteStep (crc : Nat) (b : Fin 256) : Nat :=
  crcShift^[8] ((crc ^^^ (rev8 b.val <<< 8)) % 65536)

/-- One iteration of the final reversal loop (lines 113-118), acting on
the pair (result, crc). -/
def rev16Step (p : Nat × Nat) : Nat × Nat :=
  (((p.1 <<< 1) % 65536) ||| (p.2 &&& 1), p.2 >>> 1)

/-- The final 16-bit reversal loop of the C source (lines 112-118):
sixteen iterations moving the low bit of crc into the result. -/
def rev16 (crc : Nat) : Nat :=
  (rev16Step^[16] (0, crc)).1

/-- calculate_crc_16_ibm (lines 81-121): fold the byte step over the
buffer starting from register value 0, then reverse the register. -/
def calculate_crc_16_ibm (data : List (Fin 256)) : Nat :=
  rev16 (data.foldl crcByteStep 0)

/-! ## Spec-side formulation of the checksum (spec section 4.1)

The following definitions are written from the words of the
specification, independently of the C loop structure, to serve as the
refinement target for claim C4: bit reversal is stated positionally
via testBit, and the shift step is stated as the spec does, namely
shift left by one and, if the bit shifted out of position 15 was set,
XOR with 0x8005. -/

/-- Positional bit reversal of a w-bit word: bit i moves to position
w-1-i. -/
def bitrev (w x : Nat) : Nat :=
  (List.range w).foldl (fun acc i => acc + (if x.testBit i then 2 ^ (w - 1 - i) else 0)) 0

/-- Spec wording of one shift step: shift the 16-bit register left by
one, and if the bit shifted out of position 15 was set, XOR 0x8005. -/
def crcSpecShift (c : Nat) : Nat :=
  let shifted := (2 * c) % 65536
  if c.testBit 15 then shifted ^^^ 0x8005 else shifted

/-- Spec wording of the per-byte processing: reverse the bit order of
the byte, XOR it into the high byte of the running 16-bit register,
then run eight shift steps. -/
def crcSpecByte (c : Nat) (b : Fin 256) : Nat :=
  crcSpecShift^[8] ((c ^^^ (bitrev 8 b.val * 256)) % 65536)

/-- Spec wording of the whole checksum: process each byte in order
starting from register 0, then reverse the bit order of the final
16-bit register. -/
def crc16Spec (data : List (Fin 256)) : Nat :=
  bitrev 16 (data.foldl crcSpecByte 0)

/-- Helper for relating the two reversal formulations: reversal of the
low w bits of x, consuming x from the low end, mirroring the loop. -/
def bitrevRec : Nat → Nat → Nat
  | 0, _ => 0
  | w + 1, x => (x &&& 1) * 2 ^ w + bitrevRec w (x >>> 1)

/-! ## Configuration record (Settings)

The C type Settings is a fixed-size pointer-free struct consisting of
the application payload plus the field Verify.crc_16_ibm.  It is
modelled as the payload bytes plus the 16-bit integrity field; the
byte image used for checksumming places the two little-endian bytes of
the integrity field after the payload. -/

structure Settings where
  payload : List (Fin 256)
  crc_16_ibm : Nat
deriving DecidableEq, Repr

/-- The raw byte image of a record, as passed to the checksum. -/
def settingsBytes (s : Settings) : List (Fin 256) :=
  s.payload ++ [⟨s.crc_16_ibm % 256, by omega⟩, ⟨s.crc_16_ibm / 256 % 256, by omega⟩]

/-- calculate_settings_crc (lines 129-141): copy the record, zero the
integrity field of the copy, and checksum the byte image of the copy.
The NULL-pointer guard of the C function is not modelled since every
caller in the module passes a valid record. -/
def calculate_settings_crc (s : Settings) : Nat :=
  calculate_crc_16_ibm (settingsBytes { s with crc_16_ibm := 0 })

/-- A record with its integrity field refreshed, as produced by line
211 of save_settings_with_crc. -/
def withCrc (s : Settings) : Settings :=
  { s with crc_16_ibm := calculate_settings_crc s }

/-- The integrity comparison performed by load_from_file at line 182. -/
def integrityOk (s : Settings) : Bool :=
  calculate_settings_crc s == s.crc_16_ibm

/-! ## Filesystem model and Persistence Engine

The module addresses exactly four paths (lines 27-37).  The filesystem
maps each path to the decoded record it currently holds, abstracting
the external INI serializer: write_settings_to_file stores the record
at a path, rename moves the contents of one path onto another.  I/O
failures of the external calls are supplied through an environment of
success flags; a failed write is modelled as leaving the path
unchanged. -/

inductive SPath
  | mainPath
  | backupPath
  | tempMain
  | tempBackup
deriving DecidableEq

def FS : Type := SPath → Option Settings

def FS.writeFile (fs : FS) (p : SPath) (s : Settings) : FS :=
  fun q => if q = p then some s else fs q

/-- rename moves the contents of src onto dst and removes src, as the
POSIX rename used at lines 224 and 228. -/
def FS.renameFile (fs : FS) (src dst : SPath) : FS :=
  fun q => if q = dst then fs src else if q = src then none else fs q

/-- Success flags for the four external I/O calls a single
save_settings_with_crc can make. -/
structure IoEnv where
  writeTempMainOk : Bool
  writeTempBackupOk : Bool
  renameBackupOk : Bool
  renameMainOk : Bool

/-- The all-success environment. -/
def allOk : IoEnv := ⟨true, true, true, true⟩

/-- save_settings_with_crc (lines 202-237).  Returns the filesystem
after the call, the record as left in the caller's storage after the
call (the C function receives a pointer and at line 211 assigns the
freshly computed checksum through it), and the success result.  The
NULL guard of line 205 is not modelled: every caller in the module
passes a valid record. -/
def save_settings_with_crc (fs : FS) (s : Settings) (io : IoEnv) : FS × Settings × Bool :=
  let s1 := withCrc s
  if !io.writeTempMainOk then (fs, s1, false)
  else
    let fs1 := fs.writeFile .tempMain s1
    let fs2 :=
      if io.writeTempBackupOk then
        let fsb := fs1.writeFile .tempBackup s1
        if io.renameBackupOk then fsb.renameFile .tempBackup .backupPath else fsb
      else fs1
    if io.renameMainOk then (fs2.renameFile .tempMain .mainPath, s1, true)
    else (fs2, s1, false)

/-- Abstraction of one INI file as seen through the external parser
(ini_parse_file with settings_ini_handler): overlay is the cumulative
effect of the key-value pairs the handler processed (on a parse
failure, of the pairs handled before the failure), and parseOk tells
whether ini_parse_file returned 0. -/
structure IniFile where
  overlay : Settings → Settings
  parseOk : Bool

/-- load_from_file (lines 152-192).  filenameNull models passing a
NULL filename (the NULL record-pointer guard behaves identically);
file is the content found at the path, none meaning fopen fails; prev
is the value of the caller's record before the call.  Returns the
record as left in the caller's storage and the success result.  The
function first resets the record to defaults (line 161), then the
parser overlays the handled pairs, then the integrity code is
verified. -/
def load_from_file (filenameNull : Bool) (file : Option IniFile) (defaults prev : Settings) :
    Settings × Bool :=
  if filenameNull then (prev, false)
  else
    match file with
    | none => (defaults, false)
    | some f =>
        let s := f.overlay defaults
        if !f.parseOk then (s, false)
        else (s, integrityOk s)

/-! ## Background Worker / Change Detector (work_thread_func, lines 246-303) -/

/-- DELAY_WRITE_CYCLES (line 67). -/
def DELAY_WRITE_CYCLES : Nat := 5

/-- State touched by one debounce evaluation: the filesystem, the
shared cache, the snapshot, and the two local debounce variables of
work_thread_func. -/
structure WorkerState where
  fs : FS
  cache : Settings
  snapshot : Settings
  cacheChanged : Bool
  changeCycleCount : Nat

/-- One Change Detector evaluation: the loop body of work_thread_func
from line 271 to line 298 (the part executed under cache_mutex).
Returns the new state and whether save_settings_with_crc was invoked.
Note that the save at line 292 passes the cache itself, so a save
refreshes the integrity field of the cache in place, and the snapshot
copy at line 295 then captures that refreshed value. -/
def work_cycle (w : WorkerState) (io : IoEnv) : WorkerState × Bool :=
  let w1 :=
    if w.cache ≠ w.snapshot then
      { w with snapshot := w.cache, cacheChanged := true, changeCycleCount := 0 }
    else if w.cacheChanged then
      { w with changeCycleCount := w.changeCycleCount + 1 }
    else w
  if w1.cacheChanged = true ∧ w1.changeCycleCount ≥ DELAY_WRITE_CYCLES then
    let r := save_settings_with_crc w1.fs w1.cache io
    ({ fs := r.1, cache := r.2.1, snapshot := r.2.1,
       cacheChanged := false, changeCycleCount := 0 }, true)
  else (w1, false)

/-- Iterated worker cycles with no intervening SetData, counting how
many of them invoked a save. -/
def work_run (io : IoEnv) : Nat → WorkerState → WorkerState × Nat
  | 0, w => (w, 0)
  | n + 1, w =>
      let r := work_cycle w io
      let r2 := work_run io n r.1
      (r2.1, (if r.2 then 1 else 0) + r2.2)

/-! ## Lifecycle Manager and Cache Store API -/

/-- The module-level shared state: the running flag, the cache, the
snapshot and the filesystem. -/
structure ModState where
  running : Bool
  cache : Settings
  snapshot : Settings
  fs : FS

/-- The record after memset(&settings_cache, 0, sizeof(Settings)) at
line 327: a zero byte image of the same fixed size. -/
def zeroRecord (s : Settings) : Settings :=
  { payload := s.payload.map (fun _ => (0 : Fin 256)), crc_16_ibm := 0 }

/-- settings_persist_init (lines 313-358).  fMain and fBackup are the
contents of the main and backup paths as seen by the parser, d is the
record written by the external settings_restore_defaults, io supplies
the save success flags and threadStartOk whether pthread_create
succeeds.  Returns the new module state and the return code. -/
def settings_persist_init (st : ModState) (fMain fBackup : Option IniFile) (d : Settings)
    (io : IoEnv) (threadStartOk : Bool) : ModState × Int :=
  if st.running then (st, 1)
  else
    let z := zeroRecord st.cache
    let r1 := load_from_file false fMain d z
    let afterLoad : Settings × FS :=
      if r1.2 then (r1.1, st.fs)
      else
        let r2 := load_from_file false fBackup d r1.1
        if r2.2 then (r2.1, st.fs)
        else
          let rs := save_settings_with_crc st.fs d io
          (rs.2.1, rs.1)
    if threadStartOk then
      ({ running := true, cache := afterLoad.1, snapshot := afterLoad.1, fs := afterLoad.2 }, 0)
    else
      ({ running := false, cache := afterLoad.1, snapshot := afterLoad.1, fs := afterLoad.2 }, -1)

/-- settings_persist_get_data (lines 369-391).  argNull models a NULL
record pointer; on success the caller receives a copy of the cache. -/
def settings_persist_get_data (argNull : Bool) (st : ModState) : Int × Option Settings :=
  if argNull then (-1, none)
  else if !st.running then (-2, none)
  else (0, some st.cache)

/-- settings_persist_set_data (lines 402-424). -/
def settings_persist_set_data (arg : Option Settings) (st : ModState) : Int × ModState :=
  match arg with
  | none => (-1, st)
  | some s =>
      if !st.running then (-2, st)
      else (0, { st with cache := s })

/-- settings_persist_deinit (lines 433-453). -/
def settings_persist_deinit (st : ModState) : ModState × Int :=
  if !st.running then (st, 1)
  else ({ st with running := false }, 0)

/-! ## Lock traces (claim C9)

Each public routine performs a fixed straight-line sequence of mutex
operations on each control path; the sequences below are read off the
source line by line.  The two locks are
settings_persist_thread_status_mutex (flagLock) and cache_mutex
(cacheLock). -/

inductive LockId
  | flagLock
  | cacheLock
deriving DecidableEq, BEq

inductive LockEv
  | acq (l : LockId)
  | rel (l : LockId)

/-- Lock operations of settings_persist_get_data (lines 369-391) on
the control path selected by its argument and the running flag. -/
def getDataLockTrace (argNull running : Bool) : List LockEv :=
  if argNull then []
  else if !running then [.acq .flagLock, .rel .flagLock]
  else [.acq .flagLock, .acq .cacheLock, .rel .cacheLock, .rel .flagLock]

/-- Lock operations of settings_persist_set_data (lines 402-424). -/
def setDataLockTrace (argNull running : Bool) : List LockEv :=
  if argNull then []
  else if !running then [.acq .flagLock, .rel .flagLock]
  else [.acq .flagLock, .acq .cacheLock, .rel .cacheLock, .rel .flagLock]

/-- Lock operations of one iteration of the worker loop (lines
256-300): the flag is read under its own lock, released, and only then
is the cache lock taken for the comparison and possible save. -/
def workCycleLockTrace (running : Bool) : List LockEv :=
  if !running then [.acq .flagLock, .rel .flagLock]
  else [.acq .flagLock, .rel .flagLock, .acq .cacheLock, .rel .cacheLock]

/-- Lock operations of settings_persist_init (lines 313-358); the
thread-start-failure path performs the same lock sequence. -/
def initLockTrace (running : Bool) : List LockEv :=
  if running then [.acq .flagLock, .rel .flagLock]
  else [.acq .flagLock, .acq .cacheLock, .rel .cacheLock, .rel .flagLock]

/-- Lock operations of settings_persist_deinit (lines 433-453). -/
def deinitLockTrace (_running : Bool) : List LockEv :=
  [.acq .flagLock, .rel .flagLock]

/-- True when at some point of the trace both locks are held at once;
held is the multiset of locks currently held. -/
def bothHeldDuring : List LockEv → List LockId → Bool
  | [], _ => false
  | .acq l :: rest, held =>
      let held1 := l :: held
      (held1.contains .flagLock && held1.contains .cacheLock) || bothHeldDuring rest held1
  | .rel l :: rest, held => bothHeldDuring rest (held.erase l)

/-- True when the trace at some point acquires the flag lock while
already holding the cache lock, i.e. nests the locks in the reversed
order. -/
def acqFlagWhileHoldingCache : List LockEv → List LockId → Bool
  | [], _ => false
  | .acq l :: rest, held =>
      (l == .flagLock && held.contains .cacheLock) || acqFlagWhileHoldingCache rest (l :: held)
  | .rel l :: rest, held => acqFlagWhileHoldingCache rest (held.erase l)

/-! ## Concrete states used by counterexamples and witnesses -/

def noneFs : FS := fun _ => none

def stStopped : ModState :=
  { running := false, cache := ⟨[], 0⟩, snapshot := ⟨[], 0⟩, fs := noneFs }

def wChangedOnce : WorkerState :=
  { fs := noneFs, cache := ⟨[1], 0⟩, snapshot := ⟨[2], 0⟩,
    cacheChanged := false, changeCycleCount := 0 }

def wStableDirty2 : WorkerState :=
  { fs := noneFs, cache := ⟨[1], 0⟩, snapshot := ⟨[1], 0⟩,
    cacheChanged := true, changeCycleCount := 2 }

def wStableDirty4 : WorkerState :=
  { fs := noneFs, cache := ⟨[1], 0⟩, snapshot := ⟨[1], 0⟩,
    cacheChanged := true, changeCycleCount := 4 }

def wCleanIdle : WorkerState :=
  { fs := noneFs, cache := ⟨[1], 0⟩, snapshot := ⟨[1], 0⟩,
    cacheChanged := false, changeCycleCount := 0 }

/-! ## Abbreviations for worker states reached in the debounce scenario -/

def workDirty (w : WorkerState) (k : Nat) : WorkerState :=
  { w with snapshot := w.cache, cacheChanged := true, changeCycleCount := k }

def workSaved (w : WorkerState) (io : IoEnv) : WorkerState :=
  { fs := (save_settings_with_crc w.fs w.cache io).1, cache := withCrc w.cache,
    snapshot := withCrc w.cache, cacheChanged := false, changeCycleCount := 0 }


/-! ## Checksum lemmas (toward claim C4) -/



theorem xor_mod_two_pow (a b k : Nat) (hb : b < 2 ^ k) :
    (a ^^^ b) % 2 ^ k = (a % 2 ^ k) ^^^ b := by
  apply Nat.eq_of_testBit_eq
  intro i
  simp only [Nat.testBit_mod_two_pow, Nat.testBit_xor]
  by_cases h : i < k
  · simp [h]
  · have hbb : b.testBit i = false := by
      apply Nat.testBit_lt_two_pow
      exact lt_of_lt_of_le hb (Nat.pow_le_pow_right (by norm_num) (by omega))
    simp [h, hbb]

theorem and_two_pow_ne_iff (c i : Nat) : (c &&& 2 ^ i ≠ 0) ↔ c.testBit i = true := by
  constructor
  · intro h
    by_contra hc
    apply h
    apply Nat.eq_of_testBit_eq
    intro j
    simp only [Nat.testBit_and, Nat.zero_testBit, Nat.testBit_two_pow]
    by_cases hij : i = j
    · subst hij
      simp [Bool.eq_false_iff.mpr hc]
    · simp [hij]
  · intro h hc
    have : (c &&& 2 ^ i).testBit i = false := by rw [hc]; simp
    rw [Nat.testBit_and, h, Nat.testBit_two_pow] at this
    simp at this

theorem crcShift_eq_spec (c : Nat) : crcShift c = crcSpecShift c := by
  unfold crcShift crcSpecShift
  have hcond : (c &&& 0x8000 ≠ 0) = (c.testBit 15 = true) := by
    have := and_two_pow_ne_iff c 15
    norm_num at this ⊢
    rw [this]
  have hsl : c <<< 1 = 2 * c := by rw [Nat.shiftLeft_eq]; ring
  by_cases h : c.testBit 15
  · rw [if_pos (by rw [show (0x8000 : Nat) = 2 ^ 15 by norm_num]; exact (and_two_pow_ne_iff c 15).mpr h), if_pos h]
    rw [hsl, show (65536 : Nat) = 2 ^ 16 from by norm_num, xor_mod_two_pow _ _ 16 (by norm_num)]
  · rw [if_neg (by rw [show (0x8000 : Nat) = 2 ^ 15 by norm_num]; intro hc; exact absurd ((and_two_pow_ne_iff c 15).mp hc) (by simp [h])), if_neg h]
    rw [hsl]

theorem rev8_eq_bitrev : ∀ b : Fin 256, rev8 b.val = bitrev 8 b.val := by decide

theorem two_mul_or_bit (a b : Nat) (hb : b ≤ 1) : 2 * a ||| b = 2 * a + b := by
  interval_cases b
  · simp
  · apply Nat.eq_of_testBit_eq
    intro i
    cases i with
    | zero =>
      simp [Nat.testBit_zero, Nat.mul_add_mod, Nat.mul_mod_right]
    | succ j =>
      simp only [Nat.testBit_or]
      rw [Nat.testBit_add_one (2 * a), Nat.testBit_add_one 1, Nat.testBit_add_one (2 * a + 1)]
      rw [show 2 * a / 2 = a by omega, show (2 * a + 1) / 2 = a by omega,
        show (1 : Nat) / 2 = 0 by norm_num]
      simp



theorem shiftRight_one' (x : Nat) : x >>> 1 = x / 2 := by
  rw [show (1 : Nat) = 0 + 1 from rfl, Nat.shiftRight_succ, Nat.shiftRight_zero]

theorem and_one_le_one (c : Nat) : c &&& 1 ≤ 1 := by
  rw [Nat.and_one_is_mod]
  omega

theorem rev16Step_iterate : ∀ n : Nat, n ≤ 16 → ∀ acc c : Nat, acc < 2 ^ (16 - n) →
    rev16Step^[n] (acc, c) = (acc * 2 ^ n + bitrevRec n c, c >>> n) := by
  intro n
  induction n with
  | zero => intro _ acc c _; simp [bitrevRec]
  | succ n ih =>
    intro hn acc c hacc
    rw [Function.iterate_succ_apply]
    have hstep : rev16Step (acc, c) = (2 * acc + (c &&& 1), c >>> 1) := by
      unfold rev16Step
      have h1 : acc <<< 1 = 2 * acc := by rw [Nat.shiftLeft_eq]; ring
      have hp : (2 : Nat) ^ (16 - (n + 1)) * 2 = 2 ^ (16 - n) := by
        rw [← pow_succ]
        congr 1
        omega
      have hple : (2 : Nat) ^ (16 - n) ≤ 2 ^ 16 := Nat.pow_le_pow_right (by norm_num) (by omega)
      have h2 : (2 * acc) % 65536 = 2 * acc := by
        apply Nat.mod_eq_of_lt
        have : 2 * acc < 2 ^ (16 - n) := by omega
        calc 2 * acc < 2 ^ (16 - n) := this
          _ ≤ 2 ^ 16 := hple
          _ = 65536 := by norm_num
      rw [h1, h2, two_mul_or_bit _ _ (and_one_le_one c)]
    rw [hstep]
    have hacc' : 2 * acc + (c &&& 1) < 2 ^ (16 - n) := by
      have hb := and_one_le_one c
      have hp : (2 : Nat) ^ (16 - (n + 1)) * 2 = 2 ^ (16 - n) := by
        rw [← pow_succ]
        congr 1
        omega
      omega
    rw [ih (by omega) _ _ hacc', Prod.mk.injEq]
    refine ⟨?_, ?_⟩
    · show (2 * acc + (c &&& 1)) * 2 ^ n + bitrevRec n (c >>> 1) = acc * 2 ^ (n + 1) + bitrevRec (n + 1) c
      show _ = acc * 2 ^ (n + 1) + ((c &&& 1) * 2 ^ n + bitrevRec n (c >>> 1))
      ring
    · show (c >>> 1) >>> n = c >>> (n + 1)
      rw [← Nat.shiftRight_add]
      congr 1
      omega

theorem bitrevRec_lt (w : Nat) : ∀ x, bitrevRec w x < 2 ^ w := by
  induction w with
  | zero => intro x; simp [bitrevRec]
  | succ w ih =>
    intro x
    have h1 := and_one_le_one x
    have h2 := ih (x >>> 1)
    show (x &&& 1) * 2 ^ w + bitrevRec w (x >>> 1) < 2 ^ (w + 1)
    have : (2 : Nat) ^ (w + 1) = 2 ^ w * 2 := by rw [pow_succ]
    nlinarith

theorem foldl_add_init (g : Nat → Nat) : ∀ (l : List Nat) (c : Nat),
    l.foldl (fun a i => a + g i) c = c + l.foldl (fun a i => a + g i) 0 := by
  intro l
  induction l with
  | nil => intro c; simp
  | cons x xs ih =>
    intro c
    simp only [List.foldl_cons]
    rw [ih (c + g x), ih (0 + g x)]
    omega

theorem bitrev_eq_bitrevRec (w : Nat) : ∀ x, bitrev w x = bitrevRec w x := by
  induction w with
  | zero => intro x; rfl
  | succ w ih =>
    intro x
    unfold bitrev
    rw [List.range_succ_eq_map]
    simp only [List.foldl_cons, List.foldl_map]
    rw [foldl_add_init]
    have hbody : (List.range w).foldl
        (fun acc j => acc + (if x.testBit (Nat.succ j) then 2 ^ (w + 1 - 1 - Nat.succ j) else 0)) 0
        = bitrev w (x >>> 1) := by
      unfold bitrev
      apply List.foldl_ext
      intro a j hj
      congr 1
      have h1 : x.testBit (Nat.succ j) = (x >>> 1).testBit j := by
        rw [Nat.testBit_add_one, shiftRight_one']
      have h2 : w + 1 - 1 - Nat.succ j = w - 1 - j := by omega
      rw [h1, h2]
    rw [hbody, ih]
    have h0 : (0 + if x.testBit 0 then 2 ^ (w + 1 - 1 - 0) else 0) = (x &&& 1) * 2 ^ w := by
      rw [Nat.and_one_is_mod]
      rcases Nat.mod_two_eq_zero_or_one x with h | h
      · have : x.testBit 0 = false := by simp [Nat.testBit_zero, h]
        simp [this, h]
      · have : x.testBit 0 = true := by simp [Nat.testBit_zero, h]
        simp [this, h]
    rw [h0]
    rfl

theorem rev16_eq_bitrev (c : Nat) : rev16 c = bitrev 16 c := by
  unfold rev16
  rw [rev16Step_iterate 16 (by omega) 0 c (by norm_num), bitrev_eq_bitrevRec]
  simp



theorem crcShift_funext : crcShift = crcSpecShift := funext crcShift_eq_spec

theorem crcByteStep_eq (c : Nat) (b : Fin 256) : crcByteStep c b = crcSpecByte c b := by
  unfold crcByteStep crcSpecByte
  rw [crcShift_funext, rev8_eq_bitrev b, Nat.shiftLeft_eq]

theorem crcByteStep_funext : crcByteStep = crcSpecByte :=
  funext fun c => funext fun b => crcByteStep_eq c b

theorem calculate_crc_16_ibm_eq_spec (data : List (Fin 256)) :
    calculate_crc_16_ibm data = crc16Spec data := by
  unfold calculate_crc_16_ibm crc16Spec
  rw [crcByteStep_funext, rev16_eq_bitrev]

theorem calculate_crc_16_ibm_lt (data : List (Fin 256)) :
    calculate_crc_16_ibm data < 65536 := by
  unfold calculate_crc_16_ibm rev16
  rw [rev16Step_iterate 16 (by omega) 0 _ (by norm_num)]
  have := bitrevRec_lt 16 (data.foldl crcByteStep 0)
  norm_num at this ⊢
  omega


/-! ## Record and save helper lemmas -/

theorem calculate_settings_crc_set_crc (r : Settings) (c : Nat) :
    calculate_settings_crc { r with crc_16_ibm := c } = calculate_settings_crc r := rfl

theorem withCrc_idem_crc (r : Settings) :
    calculate_settings_crc (withCrc r) = calculate_settings_crc r :=
  calculate_settings_crc_set_crc r _

theorem integrityOk_withCrc (r : Settings) : integrityOk (withCrc r) = true := by
  simp [integrityOk, withCrc, calculate_settings_crc_set_crc]

theorem save_record_eq (fs : FS) (s : Settings) (io : IoEnv) :
    (save_settings_with_crc fs s io).2.1 = withCrc s := by
  rcases io with ⟨w1, w2, rb, rm⟩
  cases w1 <;> cases w2 <;> cases rb <;> cases rm <;> simp [save_settings_with_crc]



/-! ## Debounce step lemmas -/

theorem work_cycle_change (w : WorkerState) (io : IoEnv) (h : w.cache ≠ w.snapshot) :
    work_cycle w io =
      ({ w with snapshot := w.cache, cacheChanged := true, changeCycleCount := 0 }, false) := by
  simp [work_cycle, h, DELAY_WRITE_CYCLES]

theorem work_cycle_stable_lt (w : WorkerState) (io : IoEnv) (h : w.cache = w.snapshot)
    (hd : w.cacheChanged = true) (hlt : w.changeCycleCount + 1 < DELAY_WRITE_CYCLES) :
    work_cycle w io = ({ w with changeCycleCount := w.changeCycleCount + 1 }, false) := by
  have hge : ¬ (w.changeCycleCount + 1 ≥ DELAY_WRITE_CYCLES) := by omega
  simp [work_cycle, h, hd, hge]

theorem work_cycle_stable_ge (w : WorkerState) (io : IoEnv) (h : w.cache = w.snapshot)
    (hd : w.cacheChanged = true) (hge : w.changeCycleCount + 1 ≥ DELAY_WRITE_CYCLES) :
    work_cycle w io =
      ({ fs := (save_settings_with_crc w.fs w.cache io).1, cache := withCrc w.cache,
         snapshot := withCrc w.cache, cacheChanged := false, changeCycleCount := 0 }, true) := by
  simp [work_cycle, h, hd, hge, save_record_eq]

theorem work_cycle_clean (w : WorkerState) (io : IoEnv) (h : w.cache = w.snapshot)
    (hd : w.cacheChanged = false) :
    work_cycle w io = (w, false) := by
  simp [work_cycle, h, hd, DELAY_WRITE_CYCLES]



theorem work_run_succ (io : IoEnv) (n : Nat) (w : WorkerState) :
    work_run io (n + 1) w =
      ((work_run io n (work_cycle w io).1).1,
       (if (work_cycle w io).2 then 1 else 0) + (work_run io n (work_cycle w io).1).2) := rfl

theorem work_scenario (w : WorkerState) (io : IoEnv)
    (_hclean : w.cacheChanged = false) (hch : w.cache ≠ w.snapshot) :
    (work_run io 5 w).2 = 0 ∧ (work_run io 6 w).2 = 1 ∧
    (work_run io 6 w).1.cacheChanged = false ∧ (work_run io 6 w).1.changeCycleCount = 0 ∧
    (work_run io 6 w).1.snapshot = (work_run io 6 w).1.cache := by
  have h1 : work_cycle w io = (workDirty w 0, false) := work_cycle_change w io hch
  have hs : ∀ k : Nat, k + 1 < DELAY_WRITE_CYCLES →
      work_cycle (workDirty w k) io = (workDirty w (k + 1), false) := by
    intro k hk
    exact work_cycle_stable_lt (workDirty w k) io rfl rfl hk
  have h2 := hs 0 (by norm_num [DELAY_WRITE_CYCLES])
  have h3 := hs 1 (by norm_num [DELAY_WRITE_CYCLES])
  have h4 := hs 2 (by norm_num [DELAY_WRITE_CYCLES])
  have h5 := hs 3 (by norm_num [DELAY_WRITE_CYCLES])
  have h6 : work_cycle (workDirty w 4) io = (workSaved w io, true) :=
    work_cycle_stable_ge (workDirty w 4) io rfl rfl (by simp [workDirty, DELAY_WRITE_CYCLES])
  have b0 : work_run io 0 (workDirty w 4) = (workDirty w 4, 0) := rfl
  have b1 : work_run io 1 (workDirty w 3) = (workDirty w 4, 0) := by
    rw [show (1 : Nat) = 0 + 1 from rfl, work_run_succ, h5]
    simp [b0]
  have b2 : work_run io 2 (workDirty w 2) = (workDirty w 4, 0) := by
    rw [show (2 : Nat) = 1 + 1 from rfl, work_run_succ, h4]
    simp [b1]
  have b3 : work_run io 3 (workDirty w 1) = (workDirty w 4, 0) := by
    rw [show (3 : Nat) = 2 + 1 from rfl, work_run_succ, h3]
    simp [b2]
  have b4 : work_run io 4 (workDirty w 0) = (workDirty w 4, 0) := by
    rw [show (4 : Nat) = 3 + 1 from rfl, work_run_succ, h2]
    simp [b3]
  have e5 : work_run io 5 w = (workDirty w 4, 0) := by
    rw [show (5 : Nat) = 4 + 1 from rfl, work_run_succ, h1]
    simp [b4]
  have a1 : work_run io 1 (workDirty w 4) = (workSaved w io, 1) := by
    rw [show (1 : Nat) = 0 + 1 from rfl, work_run_succ, h6]
    simp [work_run]
  have a2 : work_run io 2 (workDirty w 3) = (workSaved w io, 1) := by
    rw [show (2 : Nat) = 1 + 1 from rfl, work_run_succ, h5]
    simp [a1]
  have a3 : work_run io 3 (workDirty w 2) = (workSaved w io, 1) := by
    rw [show (3 : Nat) = 2 + 1 from rfl, work_run_succ, h4]
    simp [a2]
  have a4 : work_run io 4 (workDirty w 1) = (workSaved w io, 1) := by
    rw [show (4 : Nat) = 3 + 1 from rfl, work_run_succ, h3]
    simp [a3]
  have a5 : work_run io 5 (workDirty w 0) = (workSaved w io, 1) := by
    rw [show (5 : Nat) = 4 + 1 from rfl, work_run_succ, h2]
    simp [a4]
  have e6 : work_run io 6 w = (workSaved w io, 1) := by
    rw [show (6 : Nat) = 5 + 1 from rfl, work_run_succ, h1]
    simp [a5]
  rw [e5, e6]
  simp [workSaved]




/-- C1: the claim that save_settings_with_crc leaves the caller's
record byte-for-byte unchanged is false: at line 211 the function
assigns the fresh checksum through the caller's pointer.  On the
record with payload bytes 1,2,3 and integrity field 0, the record
after a fully successful save differs from the record passed in. -/
theorem c1_counterexample :
    (save_settings_with_crc noneFs ⟨[1, 2, 3], 0⟩ allOk).2.1 ≠ (⟨[1, 2, 3], 0⟩ : Settings) := by
  decide

/-- C1 (amended): for every record r passed to save_settings_with_crc,
the caller's record after the call equals r with exactly its Integrity
Code field overwritten by record_checksum(r); the payload is
unchanged.  This holds on every control path, for every filesystem
state and every I/O outcome. -/
theorem c1_save_updates_crc_in_place (fs : FS) (s : Settings) (io : IoEnv) :
    (save_settings_with_crc fs s io).2.1 = withCrc s
  ∧ (save_settings_with_crc fs s io).2.1.payload = s.payload
  ∧ (save_settings_with_crc fs s io).2.1.crc_16_ibm = calculate_settings_crc s := by
  refine ⟨save_record_eq fs s io, ?_, ?_⟩ <;> rw [save_record_eq fs s io] <;> rfl

/-- C2: the claim that after a successful Save the backup file holds
the previously committed record, one generation behind main, is
false: lines 221-224 write the NEW record to the temporary backup path
and rename it onto the backup path.  Concretely, with the old record
(payload byte 9, integrity field 7) at the main path, saving the
record with payload bytes 2,2,2 succeeds and leaves the backup equal
to the newly saved record, not to the old main record. -/
theorem c2_counterexample :
    ((save_settings_with_crc
        (fun p => if p = SPath.mainPath then some ⟨[9], 7⟩ else none)
        ⟨[2, 2, 2], 0⟩ allOk).1 SPath.backupPath ≠ some (⟨[9], 7⟩ : Settings))
  ∧ (save_settings_with_crc
        (fun p => if p = SPath.mainPath then some ⟨[9], 7⟩ else none)
        ⟨[2, 2, 2], 0⟩ allOk).2.2 = true
  ∧ (save_settings_with_crc
        (fun p => if p = SPath.mainPath then some ⟨[9], 7⟩ else none)
        ⟨[2, 2, 2], 0⟩ allOk).1 SPath.backupPath = some (withCrc ⟨[2, 2, 2], 0⟩) := by
  refine ⟨?_, rfl, rfl⟩
  intro h
  simp [save_settings_with_crc, allOk, FS.writeFile, FS.renameFile, withCrc] at h

/-- C2 (amended): after a Save in which every I/O call succeeds, the
backup path and the main path both hold the same newly saved record
(the backup is refreshed to the current generation, not kept one
generation behind); and when the backup temp-file write fails the
backup path is left untouched (best effort). -/
theorem c2_backup_holds_new_record (fs : FS) (s : Settings) (w1 rb rm : Bool) :
    (save_settings_with_crc fs s allOk).2.2 = true
  ∧ (save_settings_with_crc fs s allOk).1 SPath.backupPath = some (withCrc s)
  ∧ (save_settings_with_crc fs s allOk).1 SPath.mainPath = some (withCrc s)
  ∧ (save_settings_with_crc fs s ⟨w1, false, rb, rm⟩).1 SPath.backupPath = fs SPath.backupPath := by
  refine ⟨rfl, rfl, rfl, ?_⟩
  cases w1 <;> cases rb <;> cases rm <;> rfl



/-- C3: one Change Detector evaluation implements exactly the
specified debounce transitions.  Whenever cache and snapshot differ by
value, the snapshot is set to the cache and the counter resets to 0
with no save that cycle; whenever they agree while dirty below the
threshold, the counter increments; when dirty with the incremented
counter at or above DELAY_WRITE_CYCLES = 5 the save is invoked exactly
once and the state returns to clean with the snapshot refreshed to the
cache (whose integrity field the save refreshes in place), with the
resulting state independent of the save outcome io; a clean cycle with
no change does nothing.  Finally, from a clean state with exactly one
pending change, five evaluations produce no save and six produce
exactly one, ending clean with snapshot equal to cache. -/
theorem c3_debounce_transitions (w : WorkerState) (io : IoEnv) :
    (w.cache ≠ w.snapshot →
      work_cycle w io =
        ({ w with snapshot := w.cache, cacheChanged := true, changeCycleCount := 0 }, false))
  ∧ (w.cache = w.snapshot → w.cacheChanged = true →
      w.changeCycleCount + 1 < DELAY_WRITE_CYCLES →
      work_cycle w io = ({ w with changeCycleCount := w.changeCycleCount + 1 }, false))
  ∧ (w.cache = w.snapshot → w.cacheChanged = true →
      w.changeCycleCount + 1 ≥ DELAY_WRITE_CYCLES →
      work_cycle w io =
        ({ fs := (save_settings_with_crc w.fs w.cache io).1, cache := withCrc w.cache,
           snapshot := withCrc w.cache, cacheChanged := false, changeCycleCount := 0 }, true))
  ∧ (w.cache = w.snapshot → w.cacheChanged = false → work_cycle w io = (w, false))
  ∧ (w.cacheChanged = false → w.cache ≠ w.snapshot →
      (work_run io 5 w).2 = 0 ∧ (work_run io 6 w).2 = 1 ∧
      (work_run io 6 w).1.cacheChanged = false ∧ (work_run io 6 w).1.changeCycleCount = 0 ∧
      (work_run io 6 w).1.snapshot = (work_run io 6 w).1.cache) := by
  refine ⟨work_cycle_change w io, work_cycle_stable_lt w io, work_cycle_stable_ge w io,
    work_cycle_clean w io, work_scenario w io⟩

/-- Witness for C3 at concrete states: a changed clean state, a dirty
stable state below the threshold, a dirty stable state reaching the
threshold, and an idle clean state. -/
theorem c3_debounce_transitions_witness :
    work_cycle wChangedOnce allOk =
      ({ fs := noneFs, cache := ⟨[1], 0⟩, snapshot := ⟨[1], 0⟩,
         cacheChanged := true, changeCycleCount := 0 }, false)
  ∧ work_cycle wStableDirty2 allOk =
      ({ fs := noneFs, cache := ⟨[1], 0⟩, snapshot := ⟨[1], 0⟩,
         cacheChanged := true, changeCycleCount := 3 }, false)
  ∧ work_cycle wStableDirty4 allOk =
      ({ fs := (save_settings_with_crc noneFs ⟨[1], 0⟩ allOk).1,
         cache := withCrc ⟨[1], 0⟩, snapshot := withCrc ⟨[1], 0⟩,
         cacheChanged := false, changeCycleCount := 0 }, true)
  ∧ work_cycle wCleanIdle allOk = (wCleanIdle, false)
  ∧ (work_run allOk 5 wChangedOnce).2 = 0 ∧ (work_run allOk 6 wChangedOnce).2 = 1 := by
  refine ⟨(c3_debounce_transitions wChangedOnce allOk).1 (by decide),
    (c3_debounce_transitions wStableDirty2 allOk).2.1 (by decide) (by decide) (by decide),
    (c3_debounce_transitions wStableDirty4 allOk).2.2.1 (by decide) (by decide) (by decide),
    (c3_debounce_transitions wCleanIdle allOk).2.2.2.1 (by decide) (by decide),
    ((c3_debounce_transitions wChangedOnce allOk).2.2.2.2 (by decide) (by decide)).1,
    ((c3_debounce_transitions wChangedOnce allOk).2.2.2.2 (by decide) (by decide)).2.1⟩

/-- C4: calculate_crc_16_ibm implements the reflected CRC-16 with
polynomial 0x8005, initial value 0 and no output XOR: on every byte
buffer, of every length including zero, it agrees with the
independently stated positional formulation of the spec algorithm
(per-byte bit reversal, XOR into the high register byte, eight
conditional shift-XOR steps, final 16-bit reversal), and its result is
a 16-bit value.  Totality and determinism hold because the embedding
is a pure total function, matching the C code, which reads no state
besides its arguments. -/
theorem c4_checksum_implements_spec (data : List (Fin 256)) :
    calculate_crc_16_ibm data = crc16Spec data ∧ calculate_crc_16_ibm data < 65536 :=
  ⟨calculate_crc_16_ibm_eq_spec data, calculate_crc_16_ibm_lt data⟩

/-- C5: calculate_settings_crc hashes a copy whose integrity field is
zeroed, hence is insensitive to the stored integrity field; writing
the computed checksum into the record therefore yields a record whose
stored integrity field equals its recomputed checksum, and every
record left behind by save_settings_with_crc passes the integrity
comparison performed by load_from_file. -/
theorem c5_roundtrip_law (r : Settings) (c : Nat) (fs : FS) (io : IoEnv) :
    calculate_settings_crc { r with crc_16_ibm := c } = calculate_settings_crc r
  ∧ (withCrc r).crc_16_ibm = calculate_settings_crc (withCrc r)
  ∧ integrityOk (withCrc r) = true
  ∧ integrityOk (save_settings_with_crc fs r io).2.1 = true := by
  refine ⟨calculate_settings_crc_set_crc r c, ?_, integrityOk_withCrc r, ?_⟩
  · rw [withCrc_idem_crc]
    rfl
  · rw [save_record_eq]
    exact integrityOk_withCrc r

/-- C6: the claim that mutating any non-integrity field of a verifying
record while keeping its Integrity Code always makes verification
fail is false for a 16-bit checksum: the records with payload bytes
1,64,1 and 2,0,0 share the record checksum 49273, so the second, seen
as a mutation of the first with the stored code kept, still verifies. -/
theorem c6_counterexample :
    integrityOk ⟨[1, 64, 1], 49273⟩ = true
  ∧ (⟨[2, 0, 0], 49273⟩ : Settings) ≠ (⟨[1, 64, 1], 49273⟩ : Settings)
  ∧ (⟨[2, 0, 0], 49273⟩ : Settings).crc_16_ibm = (⟨[1, 64, 1], 49273⟩ : Settings).crc_16_ibm
  ∧ integrityOk ⟨[2, 0, 0], 49273⟩ = true := by
  refine ⟨by decide, by decide, rfl, by decide⟩

/-- C6 (amended): for a verifying record (every such record has the
form withCrc r) and a payload mutation that keeps the stored Integrity
Code, verification fails exactly when the mutated record's checksum
differs from the original's; collisions of the 16-bit checksum, which
exist, pass verification. -/
theorem c6_mutation_detection (r : Settings) (p : List (Fin 256)) :
    integrityOk { payload := p, crc_16_ibm := (withCrc r).crc_16_ibm } = false
  ↔ calculate_settings_crc { payload := p, crc_16_ibm := (withCrc r).crc_16_ibm }
      ≠ calculate_settings_crc r := by
  unfold integrityOk withCrc
  constructor
  · intro h hc
    rw [hc] at h
    simp at h
  · intro h
    simp only [beq_eq_false_iff_ne, ne_eq]
    exact h



/-- C7: the claim that after both loads fail the in-memory defaults
remain in the cache is not byte-for-byte true: the best-effort save of
the defaults refreshes the integrity field of the cache in place
(line 211 acting on settings_cache at line 332).  With the defaults
record (payload byte 5, integrity field 0) and both files absent, the
cache after init holds the integrity field 272 instead of 0 and so
differs from the defaults record. -/
theorem c7_counterexample :
    (settings_persist_init stStopped none none ⟨[5], 0⟩ allOk true).1.cache
      ≠ (⟨[5], 0⟩ : Settings) := by
  decide

/-- C7 (amended): when not already running, Init tries the main file,
on any failure tries the backup file, and on failure of both restores
defaults into the cache and immediately attempts a best-effort save of
them, which refreshes the cache's Integrity Code field in place; the
defaults, with that field refreshed and the payload untouched, remain
in the cache and snapshot regardless of the save's I/O outcome io, and
Init's return code never reflects any load error: it is 0, or -1
exactly when the worker thread fails to start, whatever the two load
outcomes were. -/
theorem c7_fallback_to_defaults (st : ModState) (fMain fBackup : Option IniFile)
    (d : Settings) (io : IoEnv) (threadOk : Bool)
    (hrun : st.running = false)
    (hm : (load_from_file false fMain d (zeroRecord st.cache)).2 = false)
    (hb : (load_from_file false fBackup d
            (load_from_file false fMain d (zeroRecord st.cache)).1).2 = false) :
    (settings_persist_init st fMain fBackup d io threadOk).1.cache = withCrc d
  ∧ (settings_persist_init st fMain fBackup d io threadOk).1.snapshot = withCrc d
  ∧ (settings_persist_init st fMain fBackup d io threadOk).1.cache.payload = d.payload
  ∧ (settings_persist_init st fMain fBackup d io threadOk).2
      = (if threadOk then 0 else -1)
  ∧ (∀ f1 f2 : Option IniFile,
      (settings_persist_init st f1 f2 d io threadOk).2 = (if threadOk then 0 else -1)) := by
  have hcore : ∀ f1 f2 : Option IniFile,
      (settings_persist_init st f1 f2 d io threadOk).2 = (if threadOk then 0 else -1) := by
    intro f1 f2
    cases threadOk <;> simp [settings_persist_init, hrun]
  refine ⟨?_, ?_, ?_, hcore fMain fBackup, hcore⟩ <;>
    cases threadOk <;>
    simp [settings_persist_init, hrun, hm, hb, save_record_eq] <;>
    rfl

/-- Witness for C7: defaults with payload byte 5, both files absent,
thread start succeeding. -/
theorem c7_fallback_to_defaults_witness :
    (settings_persist_init stStopped none none ⟨[5], 0⟩ allOk true).1.cache
      = withCrc ⟨[5], 0⟩
  ∧ (settings_persist_init stStopped none none ⟨[5], 0⟩ allOk true).2 = 0 := by
  have h := c7_fallback_to_defaults stStopped none none ⟨[5], 0⟩ allOk true
    (by decide) (by decide) (by decide)
  exact ⟨h.1, h.2.2.2.1⟩

/-- C8: GetData and SetData return -1 (NullArg) on a NULL record
pointer whatever the module state, so in particular also while not
running (the NULL check at lines 372 and 405 precedes the
running-state check); they return -2 (NotRunning) when the running
flag is clear; and otherwise they copy the whole record out of,
respectively into, the cache and return 0. -/
theorem c8_get_set_guards (st : ModState) (s c sn : Settings) (fs : FS) :
    settings_persist_get_data true st = (-1, none)
  ∧ settings_persist_set_data none st = (-1, st)
  ∧ settings_persist_get_data false
      { running := false, cache := c, snapshot := sn, fs := fs } = (-2, none)
  ∧ settings_persist_set_data (some s)
      { running := false, cache := c, snapshot := sn, fs := fs }
      = (-2, { running := false, cache := c, snapshot := sn, fs := fs })
  ∧ settings_persist_get_data false
      { running := true, cache := c, snapshot := sn, fs := fs } = (0, some c)
  ∧ settings_persist_set_data (some s)
      { running := true, cache := c, snapshot := sn, fs := fs }
      = (0, { running := true, cache := s, snapshot := sn, fs := fs }) :=
  ⟨rfl, rfl, rfl, rfl, rfl, rfl⟩

/-- C9: the claim that GetData and SetData acquire at most one of the
two locks and never hold both simultaneously is false: on the
successful path both take the cache lock at lines 385 and 418 while
still holding the running-flag lock taken at lines 377 and 410. -/
theorem c9_counterexample :
    bothHeldDuring (getDataLockTrace false true) [] = true
  ∧ bothHeldDuring (setDataLockTrace false true) [] = true := by
  decide

/-- C9 (amended): GetData and SetData, like Init, do nest the two
locks, holding the running-flag lock across the cache-lock critical
section; the nesting order is consistent on every control path of
every routine (no routine ever acquires the flag lock while holding
the cache lock), and the worker loop iteration and Deinit hold at most
one lock at a time. -/
theorem c9_lock_order_consistent (argNull running : Bool) :
    acqFlagWhileHoldingCache (getDataLockTrace argNull running) [] = false
  ∧ acqFlagWhileHoldingCache (setDataLockTrace argNull running) [] = false
  ∧ acqFlagWhileHoldingCache (workCycleLockTrace running) [] = false
  ∧ acqFlagWhileHoldingCache (initLockTrace running) [] = false
  ∧ acqFlagWhileHoldingCache (deinitLockTrace running) [] = false
  ∧ bothHeldDuring (workCycleLockTrace running) [] = false
  ∧ bothHeldDuring (deinitLockTrace running) [] = false := by
  cases argNull <;> cases running <;> decide

/-- C10: the claim that load_from_file writes to the caller's record
on every input, even when it fails, is false for the NULL-argument
guard path (lines 155-159), which returns failure before the reset to
defaults: with a NULL filename the caller's record keeps its prior
value, here distinct from the defaults. -/
theorem c10_counterexample :
    load_from_file true none ⟨[5], 0⟩ ⟨[7], 1⟩ = (⟨[7], 1⟩, false)
  ∧ (⟨[7], 1⟩ : Settings) ≠ (⟨[5], 0⟩ : Settings) := by
  refine ⟨rfl, by decide⟩

/-- C10 (amended): on every call with non-NULL arguments,
load_from_file overwrites the caller's record before any failure can
occur: the record afterwards is the defaults overlaid with the
key-value pairs the parser handled (just the defaults when the file
cannot be opened), independently of the record's prior contents, on
the failing paths as well as the successful one. -/
theorem c10_failed_load_writes_record (f : Option IniFile) (d prev prev2 : Settings) :
    (load_from_file false f d prev).1
      = (match f with
         | none => d
         | some file => file.overlay d)
  ∧ (load_from_file false f d prev).1 = (load_from_file false f d prev2).1 := by
  have h : ∀ q : Settings, (load_from_file false f d q).1
      = (match f with
         | none => d
         | some file => file.overlay d) := by
    intro q
    cases f with
    | none => rfl
    | some file => cases hp : file.parseOk <;> simp [load_from_file, hp]
  exact ⟨h prev, by rw [h prev, h prev2]⟩

end SettingsPersist
